import Mathlib

/- Verification of the SearchIndex filesystem crawler (src/main.py):
   a shallow embedding of its classifier, boundary policy, persistence
   layer and recursive tree walker, with theorems checking the design
   document's claims against the code. -/

/-- Python exception classes relevant to src/main.py.  `permissionError`
is a subclass of `OSError`; `osError` stands for any other OSError
(e.g. FileNotFoundError, NotADirectoryError); the remaining classes are
not OSErrors.  `winError` stands for the pywin32 error class. -/
inductive PyErr : Type where
  | permissionError
  | osError
  | keyError
  | nameError
  | typeError
  | indexError
  | winError
deriving DecidableEq, Repr

/-- Whether an exception is caught by `except PermissionError`. -/
def PyErr.isPermission : PyErr → Bool
  | .permissionError => true
  | _ => false

/-- Whether an exception is caught by `except OSError`
(PermissionError is a subclass of OSError). -/
def PyErr.isOS : PyErr → Bool
  | .permissionError => true
  | .osError => true
  | _ => false

/-- The fields of `os.stat_result` that src/main.py reads. -/
structure StatInfo : Type where
  st_mode : Nat
  st_size : Nat
  st_uid : Nat
  st_ctime : Int
  st_atime : Int
  st_mtime : Int
deriving DecidableEq, Repr

/-- `get_file_size_category` from src/main.py, translated clause by
clause (Python's chained comparison `a < x <= b` is the conjunction). -/
def get_file_size_category (file_size_in_bytes : Nat) : String :=
  if file_size_in_bytes = 0 then "Empty"
  else if 0 < file_size_in_bytes ∧ file_size_in_bytes ≤ 16 * 1024 then "Tiny"
  else if 16 * 1024 < file_size_in_bytes ∧ file_size_in_bytes ≤ 1 * 1024 * 1024 then "Small"
  else if 1 * 1024 * 1024 < file_size_in_bytes ∧ file_size_in_bytes ≤ 128 * 1024 * 1024 then "Medium"
  else if 128 * 1024 * 1024 < file_size_in_bytes ∧ file_size_in_bytes ≤ 1 * 1024 * 1024 * 1024 then "Large"
  else if 1 * 1024 * 1024 * 1024 < file_size_in_bytes ∧ file_size_in_bytes ≤ 4 * 1024 * 1024 * 1024 then "Huge"
  else "Gigantic"

/-- The path separator character used by `posixpath`. -/
def slashChar : Char := '/'

/-- Everything up to and including the last slash of `p` (the value
`head = p[:i]` computed by `posixpath.dirname`, where
`i = p.rfind(sep) + 1`); empty when `p` has no slash. -/
def headPart (p : List Char) : List Char :=
  (p.reverse.dropWhile (fun c => c != slashChar)).reverse

/-- `head.rstrip(sep)` from `posixpath.dirname`. -/
def stripTrail (l : List Char) : List Char :=
  (l.reverse.dropWhile (fun c => c == slashChar)).reverse

/-- `os.path.dirname` (posixpath): take everything up to the last
slash; if that head is nonempty and not all slashes, strip its
trailing slashes.  An empty head and an all-slash head are returned
unchanged. -/
def dirnameL (p : List Char) : List Char :=
  if (headPart p).all (fun c => c == slashChar) then headPart p
  else stripTrail (headPart p)

theorem dropWhile_eq_or_length_lt (f : Char → Bool) :
    ∀ l : List Char, l.dropWhile f = l ∨ (l.dropWhile f).length < l.length := by
  intro l
  induction l with
  | nil => exact Or.inl rfl
  | cons a t ih =>
    by_cases h : f a
    · right
      rw [List.dropWhile_cons_of_pos h]
      rcases ih with h1 | h1
      · rw [h1]; simp
      · simp only [List.length_cons]; omega
    · left
      exact List.dropWhile_cons_of_neg (by simpa using h)

theorem dropWhile_length_le (f : Char → Bool) (l : List Char) :
    (l.dropWhile f).length ≤ l.length := by
  rcases dropWhile_eq_or_length_lt f l with h | h
  · rw [h]
  · omega

theorem headPart_eq_or_length_lt (p : List Char) :
    headPart p = p ∨ (headPart p).length < p.length := by
  unfold headPart
  rcases dropWhile_eq_or_length_lt (fun c => c != slashChar) p.reverse with h | h
  · left; rw [h, List.reverse_reverse]
  · right; simpa using h

theorem headPart_reverse_head (p : List Char) :
    (headPart p).reverse = [] ∨
      ∃ t, (headPart p).reverse = slashChar :: t := by
  unfold headPart
  rw [List.reverse_reverse]
  generalize p.reverse = q
  induction q with
  | nil => exact Or.inl rfl
  | cons a t ih =>
    by_cases h : a = slashChar
    · right
      refine ⟨t, ?_⟩
      rw [List.dropWhile_cons_of_neg (by simp [h])]
      rw [h]
    · rw [List.dropWhile_cons_of_pos (by simp [h])]
      exact ih

theorem dirnameL_eq_or_length_lt (p : List Char) :
    dirnameL p = p ∨ (dirnameL p).length < p.length := by
  unfold dirnameL
  by_cases hall : (headPart p).all (fun c => c == slashChar)
  · rw [if_pos hall]
    exact headPart_eq_or_length_lt p
  · rw [if_neg hall]
    right
    rcases headPart_reverse_head p with h | ⟨t, h⟩
    · exfalso
      apply hall
      have : headPart p = [] := by
        have := congrArg List.reverse h
        simpa using this
      simp [this]
    · have hlen : (stripTrail (headPart p)).length < (headPart p).length := by
        unfold stripTrail
        rw [h]
        rw [List.dropWhile_cons_of_pos (by simp)]
        have h1 := dropWhile_length_le (fun c => c == slashChar) t
        have h2 : (headPart p).length = t.length + 1 := by
          have := congrArg List.length h
          simpa using this
        simp only [List.length_reverse]
        omega
      have h2 : (headPart p).length ≤ p.length := by
        rcases headPart_eq_or_length_lt p with h3 | h3
        · rw [h3]
        · omega
      omega

/-- `get_folder_depth` from src/main.py: repeatedly replace the path by
its `os.path.dirname`, counting steps, until the dirname equals the
path itself.  Termination is by the strict length decrease of
`dirnameL` away from its fixed points, not by any iteration bound. -/
def get_folder_depth (file_path : List Char) : Nat :=
  if h : dirnameL file_path = file_path then 0
  else 1 + get_folder_depth (dirnameL file_path)
termination_by file_path.length
decreasing_by
  rcases dirnameL_eq_or_length_lt file_path with h1 | h1
  · exact absurd h1 h
  · exact h1

theorem get_folder_depth_fix (p : List Char) :
    get_folder_depth p =
      if dirnameL p = p then 0 else 1 + get_folder_depth (dirnameL p) := by
  rw [get_folder_depth]
  exact dite_eq_ite

theorem gfd_root : get_folder_depth ['/'] = 0 := by
  rw [get_folder_depth_fix]
  rw [if_pos (by decide)]

theorem gfd_one : get_folder_depth ['/', 'a'] = 1 := by
  rw [get_folder_depth_fix]
  rw [if_neg (by decide)]
  have h : dirnameL ['/', 'a'] = ['/'] := by decide
  rw [h, gfd_root]

theorem gfd_two : get_folder_depth ['/', 'a', '/', 'b'] = 2 := by
  rw [get_folder_depth_fix]
  rw [if_neg (by decide)]
  have h : dirnameL ['/', 'a', '/', 'b'] = ['/', 'a'] := by decide
  rw [h, gfd_one]

/-- `is_path_in_filesystems` from src/main.py.  On Windows it returns
True before anything else happens.  Otherwise the body runs under a
`try` whose `except Exception` handler falls through to `return
False`: a failing `path.resolve()` (modelled by the oracle `resolve`
returning `none`) and the TypeError from `for fs in None` when no
allow-list was supplied both end in False; otherwise the loop returns
True on the first allowed root that is a string prefix of the
resolved path. -/
def is_path_in_filesystems (isWindows : Bool)
    (resolve : List Char → Option (List Char))
    (path : List Char) (filesystems : Option (List (List Char))) : Bool :=
  if isWindows then true
  else
    match resolve path with
    | none => false
    | some start_dir =>
      match filesystems with
      | none => false
      | some fss => fss.any (fun fs => fs.isPrefixOf start_dir)

/-- The predicate of the list comprehension in `main`'s Windows branch,
`len(fs) <= 4 and fs[1] == ":"`, with Python's left-to-right
short-circuit evaluation: when `len(fs) <= 4` holds, `fs[1]` is
evaluated, and it raises IndexError when the string has fewer than two
characters. -/
def drive_token_test (fs : List Char) : Except PyErr Bool :=
  if fs.length ≤ 4 then
    match fs with
    | _ :: c :: _ => .ok (c == ':')
    | _ => .error .indexError
  else .ok false

/-- The list comprehension
`[fs for fs in filesystems if len(fs) <= 4 and fs[1] == ":"]`:
elements are tested left to right and the first exception aborts the
whole comprehension. -/
def filter_filesystems : List (List Char) → Except PyErr (List (List Char))
  | [] => .ok []
  | fs :: rest =>
    match drive_token_test fs with
    | .error e => .error e
    | .ok b =>
      match filter_filesystems rest with
      | .error e => .error e
      | .ok r => .ok (if b then fs :: r else r)

/-- A short drive-letter token: at most four characters with a colon in
second position.  For inputs of length at least two this is what the
comprehension predicate computes. -/
def short_drive_token (fs : List Char) : Bool :=
  decide (fs.length ≤ 4) && (fs[1]? == some ':')

/-- A row of the `directories` table of §6's storage contract
(create_database in src/main.py). -/
structure DirRow : Type where
  id : Nat
  parent_id : Option Nat
  directory_name : List Char
  full_path : List Char
  permission : Nat
deriving DecidableEq, Repr

/-- A row of the `files` table. -/
structure FileRow : Type where
  id : Nat
  directory_id : Option Nat
  file_name : List Char
  file_path : List Char
  size : Nat
  permission : Nat
deriving DecidableEq, Repr

/-- A row of the `tags` table.  `created`, `accessed` and `modified`
hold the raw epoch values: `datetime.fromtimestamp` is a fixed
injective conversion, modelled as the identity. -/
structure TagRow : Type where
  file_id : Nat
  identifiers : Option String
  size : String
  format : List Char
  created : Int
  accessed : Int
  modified : Int
  owner : List Char
  indent : Nat
deriving DecidableEq, Repr

/-- The SQLite store: the three tables in insertion order. -/
structure DB : Type where
  dirs : List DirRow
  files : List FileRow
  tags : List TagRow
deriving DecidableEq, Repr

def emptyDB : DB := ⟨[], [], []⟩

/-- SQLite assigns a fresh `INTEGER PRIMARY KEY` as the largest
existing rowid plus one. -/
def next_rowid (ids : List Nat) : Nat := ids.foldr max 0 + 1

/-- `insert_directory` from src/main.py.  The `directories` table has
no uniqueness constraint other than the auto-assigned INTEGER PRIMARY
KEY, so the `INSERT OR IGNORE` can never hit a conflict: a new row is
always appended, and `cursor.lastrowid` is its fresh id. -/
def insert_directory (db : DB) (parent_id : Option Nat)
    (directory_name full_path : List Char) (permission : Nat) : DB × Nat :=
  let id := next_rowid (db.dirs.map DirRow.id)
  ({ db with dirs :=
      db.dirs ++ [⟨id, parent_id, directory_name, full_path, permission⟩] }, id)

/-- `insert_file` from src/main.py; like `insert_directory`, the
`files` table has no uniqueness constraint besides the primary key, so
the insert always happens. -/
def insert_file (db : DB) (directory_id : Option Nat)
    (file_name file_path : List Char) (size : Nat) (permission : Nat) :
    DB × Nat :=
  let id := next_rowid (db.files.map FileRow.id)
  ({ db with files :=
      db.files ++ [⟨id, directory_id, file_name, file_path, size, permission⟩] }, id)

/-- `insert_tag` from src/main.py.  `tags.file_id` is the primary key,
so here `INSERT OR IGNORE` really is a no-op when a tag for that file
id already exists.  `identifiers.IDENTIFIERS.get(file_format, None)`
is the externally supplied static table `identTable`. -/
def insert_tag (identTable : List Char → Option String) (db : DB)
    (file_id : Nat) (file_size : String) (file_format : List Char)
    (file_created file_accessed file_modified : Int)
    (file_owner : List Char) (file_indent : Nat) : DB :=
  if db.tags.any (fun t => t.file_id == file_id) then db
  else
    { db with tags := db.tags ++
        [⟨file_id, identTable file_format, file_size, file_format,
          file_created, file_accessed, file_modified, file_owner,
          file_indent⟩] }

/-- `Path.name`: the final path component ("" for "/"). -/
def basenameL (p : List Char) : List Char :=
  (p.reverse.takeWhile (fun c => c != slashChar)).reverse

/-- `Path.joinpath` on POSIX paths, for the clean paths the walker
builds: append a separator unless the base already ends in one. -/
def pathJoin (p item : List Char) : List Char :=
  if p.getLast? = some slashChar then p ++ item else p ++ slashChar :: item

def dotChar : Char := '.'

/-- `os.path.splitext(path)[1][1:]`: the characters after the last dot
of the final component, provided some character before that dot inside
the component is not itself a dot (so ".bashrc" has no extension);
empty otherwise. -/
def extensionL (p : List Char) : List Char :=
  let b := basenameL p
  let afterDot := b.reverse.takeWhile (fun c => c != dotChar)
  if afterDot.length = b.length then []
  else if (b.take (b.length - afterDot.length - 1)).any (fun c => c != dotChar)
  then afterDot.reverse
  else []

/-- `str.lower()` on the extension. -/
def toLowerL (l : List Char) : List Char := l.map Char.toLower

/-- The value of `os.name` / `platform.system()` at run time. -/
inductive OSName : Type where
  | posix
  | nt
  | other
deriving DecidableEq, Repr

/-- The ambient environment of a run: the platform, the external
path-resolution and owner-lookup oracles, the static identifier table,
and the `filesystems` argument threaded through every recursive
call. -/
structure WalkCtx : Type where
  isWindows : Bool
  osName : OSName
  resolve : List Char → Option (List Char)
  pwdb : Nat → Option (List Char)
  sidOwner : List Char → Option (List Char)
  identTable : List Char → Option String
  allowed : Option (List (List Char))

/-- The owner-resolution passage of `get_directory_structure`
(src/main.py lines 157-167), exactly as written: on POSIX
`pwd.getpwuid(uid).pw_name` raises KeyError when the uid has no passwd
entry; on Windows the win32security SID lookup raises its own error
class on failure; on any other platform `file_owner` is never assigned
and its use in the `insert_tag` call raises NameError.  No handler
surrounds this code. -/
def owner_of (ctx : WalkCtx) (item_path : List Char) (st : StatInfo) :
    Except PyErr (List Char) :=
  match ctx.osName with
  | .posix =>
    match ctx.pwdb st.st_uid with
    | some n => .ok n
    | none => .error .keyError
  | .nt =>
    match ctx.sidOwner item_path with
    | some n => .ok n
    | none => .error .winError
  | .other => .error .nameError

mutual
/-- A filesystem object as the walker observes it through the os
module: symbolic links are recognised by `os.path.islink`, directories
by `os.path.isdir` (with their `os.path.ismount` flag and the outcomes
of `os.stat` and `os.listdir`), anything else is a regular file with
its `os.stat` outcome.  A symlink may point anywhere — including an
ancestor directory, forming a cycle — but the model needs no target
field, because the code never inspects one. -/
inductive FSNode : Type where
  | symlink : FSNode
  | file (stat : Except PyErr StatInfo) : FSNode
  | dir (stat : Except PyErr StatInfo) (isMount : Bool) (listing : Listing) :
      FSNode

/-- The outcome of `os.listdir` on a directory. -/
inductive Listing : Type where
  | fail (e : PyErr) : Listing
  | lst (items : Entries) : Listing

/-- The entries of a directory in the order `os.listdir` yields
them. -/
inductive Entries : Type where
  | nil : Entries
  | cons (name : List Char) (node : FSNode) (rest : Entries) : Entries
end

mutual
/-- `get_directory_structure` from src/main.py, invoked on a
directory.  Under the function-level `try`: stat the directory and
insert its row (the source's root and subdirectory branches perform
the same insert, with `parent_id` None exactly in the root case), make
the fresh id the current `parent_id`, then run the entry loop.  A
PermissionError raised anywhere inside — by the stat, the listing, or
a file stat in the loop — is caught at this level and the current
value of the `parent_id` variable is returned; any other exception
escapes to the caller.  The result pairs the updated store with either
the final `parent_id` value or the escaping exception. -/
def walkDir (ctx : WalkCtx) (db : DB) (path name : List Char)
    (stat : Except PyErr StatInfo) (listing : Listing)
    (parent_id : Option Nat) : DB × Except PyErr (Option Nat) :=
  match stat with
  | .error e => if e.isPermission then (db, .ok parent_id) else (db, .error e)
  | .ok st =>
    let ins := insert_directory db parent_id name path st.st_mode
    match listing with
    | .fail e =>
      if e.isPermission then (ins.1, .ok (some ins.2)) else (ins.1, .error e)
    | .lst items =>
      match walkItems ctx ins.1 (some ins.2) path items with
      | (db2, pidv, none) => (db2, .ok pidv)
      | (db2, pidv, some e) =>
        if e.isPermission then (db2, .ok pidv) else (db2, .error e)

/-- The body of the `for item in os.listdir(rootdir)` loop.  The state
is the store and the current `parent_id` variable; the third component
is an exception propagating out of the loop, to be caught (or not) by
the enclosing handler of `walkDir`.  Per entry: a symlink is skipped;
a directory that is a mount point rejected by the boundary policy is
skipped; otherwise the walker recurses and the `parent_id` variable is
reassigned to the recursion's return value, while an OSError from the
recursion is caught at the call site, skipping that subdirectory; a
regular file is statted (a failure here raises out of the loop),
inserted, and tagged with its derived metadata, where a failing owner
resolution raises out of the loop. -/
def walkItems (ctx : WalkCtx) (db : DB) (pid : Option Nat)
    (dirPath : List Char) (items : Entries) : DB × Option Nat × Option PyErr :=
  match items with
  | .nil => (db, pid, none)
  | .cons name child rest =>
    let item_path := pathJoin dirPath name
    match child with
    | .symlink => walkItems ctx db pid dirPath rest
    | .dir st m lst =>
      if m && !(is_path_in_filesystems ctx.isWindows ctx.resolve item_path
          ctx.allowed) then
        walkItems ctx db pid dirPath rest
      else
        match walkDir ctx db item_path name st lst pid with
        | (db2, .ok v) => walkItems ctx db2 v dirPath rest
        | (db2, .error e) =>
          if e.isOS then walkItems ctx db2 pid dirPath rest
          else (db2, pid, some e)
    | .file stE =>
      match stE with
      | .error e => (db, pid, some e)
      | .ok st =>
        let insf := insert_file db pid name item_path st.st_size st.st_mode
        match owner_of ctx item_path st with
        | .error e => (insf.1, pid, some e)
        | .ok ow =>
          let db3 := insert_tag ctx.identTable insf.1 insf.2
            (get_file_size_category st.st_size) (toLowerL (extensionL item_path))
            st.st_ctime st.st_atime st.st_mtime ow (get_folder_depth item_path)
          walkItems ctx db3 pid dirPath rest
end

/-- One full walker invocation on a root directory, as `main` performs
it: `get_directory_structure(conn, root_directory, filesystems)` with
`parent_id = None` and the directory name `Path(root).name`. -/
def runWalk (ctx : WalkCtx) (db : DB) (rootPath : List Char)
    (stat : Except PyErr StatInfo) (listing : Listing) :
    DB × Except PyErr (Option Nat) :=
  walkDir ctx db rootPath (basenameL rootPath) stat listing none

/-- Whether some entry of a directory listing is itself a directory. -/
def Entries.hasDir : Entries → Bool
  | .nil => false
  | .cons _ (.dir _ _ _) _ => true
  | .cons _ _ rest => rest.hasDir

/-- List-style induction on directory listings: entries are consumed
left to right and no recursion into child nodes is needed. -/
def Entries.consInduction {P : Entries → Prop} (hn : P .nil)
    (hc : ∀ name child rest, P rest → P (.cons name child rest)) :
    ∀ e, P e
  | .nil => hn
  | .cons name child rest => hc name child rest (consInduction hn hc rest)

/-- A sample run environment: POSIX, path resolution succeeds
verbatim, every uid resolves to "r", empty identifier table, no
allow-list (the default). -/
def sampleCtx : WalkCtx :=
  ⟨false, .posix, fun p => some p, fun _ => some ['r'], fun _ => none,
    fun _ => none, none⟩

/-- Like `sampleCtx` but the passwd database is empty, so every uid
lookup raises KeyError. -/
def noOwnerCtx : WalkCtx :=
  ⟨false, .posix, fun p => some p, fun _ => none, fun _ => none,
    fun _ => none, none⟩

/-- A sample stat result. -/
def sampleStat : StatInfo := ⟨493, 10, 1000, 5, 6, 7⟩

/-- C5: `get_file_size_category` is total on all byte sizes and follows
the binary-unit thresholds exactly: 0 is Empty, (0, 16 KiB] is Tiny,
(16 KiB, 1 MiB] is Small, (1 MiB, 128 MiB] is Medium, (128 MiB, 1 GiB]
is Large, (1 GiB, 4 GiB] is Huge, above 4 GiB is Gigantic; in
particular 16 KiB is Tiny, 16 KiB + 1 is Small, and 4 GiB + 1 is
Gigantic. -/
theorem sizeCategory_buckets (s : Nat) :
    (get_file_size_category s = "Empty" ↔ s = 0) ∧
    (get_file_size_category s = "Tiny" ↔ 0 < s ∧ s ≤ 16 * 1024) ∧
    (get_file_size_category s = "Small" ↔ 16 * 1024 < s ∧ s ≤ 1024 * 1024) ∧
    (get_file_size_category s = "Medium" ↔ 1024 * 1024 < s ∧ s ≤ 128 * 1024 * 1024) ∧
    (get_file_size_category s = "Large" ↔ 128 * 1024 * 1024 < s ∧ s ≤ 1024 * 1024 * 1024) ∧
    (get_file_size_category s = "Huge" ↔ 1024 * 1024 * 1024 < s ∧ s ≤ 4 * 1024 * 1024 * 1024) ∧
    (get_file_size_category s = "Gigantic" ↔ 4 * 1024 * 1024 * 1024 < s) ∧
    get_file_size_category (16 * 1024) = "Tiny" ∧
    get_file_size_category (16 * 1024 + 1) = "Small" ∧
    get_file_size_category (4 * 1024 * 1024 * 1024 + 1) = "Gigantic" := by
  refine ⟨?_, ?_, ?_, ?_, ?_, ?_, ?_, by decide, by decide, by decide⟩ <;>
  · unfold get_file_size_category
    split_ifs with h1 h2 h3 h4 h5 h6 <;> simp <;> omega

/-- C8: `get_folder_depth` is a total function of the path whose
recursion stops exactly when `os.path.dirname` of the path equals the
path itself (the root sentinel), not at any fixed iteration bound, and
it returns the number of path segments excluding the root:
depth "/" = 0, depth "/a" = 1, depth "/a/b" = 2. -/
theorem folderDepth_spec :
    (∀ p : List Char, get_folder_depth p =
        if dirnameL p = p then 0 else 1 + get_folder_depth (dirnameL p)) ∧
    get_folder_depth ['/'] = 0 ∧
    get_folder_depth ['/', 'a'] = 1 ∧
    get_folder_depth ['/', 'a', '/', 'b'] = 2 :=
  ⟨get_folder_depth_fix, gfd_root, gfd_one, gfd_two⟩

/-- C7: `is_path_in_filesystems` returns true unconditionally on
Windows; otherwise, when resolution of the path succeeds it returns
true exactly when some allowed root string is a prefix of the resolved
canonical path, and whenever resolution fails it returns false. -/
theorem boundary_policy_spec :
    (∀ (resolve : List Char → Option (List Char)) (path : List Char)
        (fss : Option (List (List Char))),
        is_path_in_filesystems true resolve path fss = true) ∧
    (∀ (resolve : List Char → Option (List Char)) (path s : List Char)
        (fss : List (List Char)), resolve path = some s →
        (is_path_in_filesystems false resolve path (some fss) = true ↔
          ∃ fs ∈ fss, fs.isPrefixOf s = true)) ∧
    (∀ (resolve : List Char → Option (List Char)) (path : List Char)
        (fss : Option (List (List Char))), resolve path = none →
        is_path_in_filesystems false resolve path fss = false) := by
  refine ⟨fun _ _ _ => rfl, ?_, ?_⟩
  · intro resolve path s fss h
    simp [is_path_in_filesystems, h, List.any_eq_true]
  · intro resolve path fss h
    simp [is_path_in_filesystems, h]

/-- C7 witness: concrete instances of the boundary policy — a resolved
path under an allowed root is accepted, a failing resolution is
refused. -/
theorem boundary_policy_spec_witness :
    is_path_in_filesystems false (fun _ => some ['/', 'm', '/', 'x'])
      ['/', 'm', '/', 'x'] (some [['/', 'm']]) = true ∧
    is_path_in_filesystems false (fun _ => none) ['/', 'm']
      (some [['/', 'm']]) = false := by
  constructor
  · exact (boundary_policy_spec.2.1 _ _ _ _ rfl).mpr ⟨['/', 'm'], by simp, by decide⟩
  · exact boundary_policy_spec.2.2 _ _ _ rfl

/-- C9 counterexample: the Windows root filter is not silent on every
non-token string — on the one-character input "D" the predicate
`len(fs) <= 4 and fs[1] == ":"` passes the length test and then
indexes position 1, raising IndexError. -/
theorem windows_filter_single_char_raises :
    filter_filesystems [['D']] = .error .indexError := rfl

/-- C9 amended: on the Windows branch, each additional root string of
length at least two that is not a short drive-letter token is filtered
out silently; strings shorter than two characters instead make the
filter raise IndexError. -/
theorem windows_filter_amended :
    ∀ l : List (List Char), (∀ fs ∈ l, 2 ≤ fs.length) →
      filter_filesystems l = .ok (l.filter short_drive_token) := by
  intro l
  induction l with
  | nil => intro _; rfl
  | cons fs rest ih =>
    intro h
    have hrest := ih (fun x hx => h x (List.mem_cons_of_mem _ hx))
    have hfs : 2 ≤ fs.length := h fs (List.mem_cons_self _ _)
    match fs, hfs with
    | a :: c :: t, _ =>
      unfold filter_filesystems drive_token_test
      rw [hrest]
      by_cases hl : (a :: c :: t : List Char).length ≤ 4
      · rw [if_pos hl]
        have ht : t.length ≤ 2 := by simp at hl; omega
        by_cases hc : c = ':'
        · simp [List.filter_cons, short_drive_token, hl, hc, ht]
        · simp [List.filter_cons, short_drive_token, hl, hc, ht]
      · rw [if_neg hl]
        have ht : ¬ t.length ≤ 2 := by simp at hl; omega
        simp [List.filter_cons, short_drive_token, hl, ht]

/-- C9 amended witness: a drive token passes the filter, a five
character string is silently dropped. -/
theorem windows_filter_amended_witness :
    (∀ fs ∈ [['D', ':'], ['X', 'X', 'X', 'X', 'X']], 2 ≤ fs.length) ∧
    filter_filesystems [['D', ':'], ['X', 'X', 'X', 'X', 'X']] =
      .ok ([['D', ':'], ['X', 'X', 'X', 'X', 'X']].filter short_drive_token) ∧
    ([['D', ':'], ['X', 'X', 'X', 'X', 'X']].filter short_drive_token) =
      [['D', ':']] :=
  ⟨by decide, windows_filter_amended _ (by decide), by decide⟩

/-- C1 (falsified by the code, contradicting the intent signalled by
its own `INSERT OR IGNORE` statements): running the walker a second
time over the same unchanged tree is not a no-op.  The `directories`
and `files` tables have no uniqueness key on the full path, so the
second run appends duplicate rows: after one run over a one-directory
tree the store holds one directory row with path "/", after two runs
it holds two rows with that same path and distinct ids. -/
theorem rerun_duplicates_rows :
    (runWalk sampleCtx emptyDB ['/'] (.ok sampleStat) (.lst .nil)).1.dirs.map
        (fun r => (r.id, r.full_path)) = [(1, ['/'])] ∧
    (runWalk sampleCtx
        (runWalk sampleCtx emptyDB ['/'] (.ok sampleStat) (.lst .nil)).1
        ['/'] (.ok sampleStat) (.lst .nil)).1.dirs.map
        (fun r => (r.id, r.full_path)) = [(1, ['/']), (2, ['/'])] :=
  ⟨by decide, by decide⟩

/-- C2 counterexample: on the tree "/" containing the single empty
subdirectory "/sub", the walk invoked on "/" inserts the root row with
id 1 and the subdirectory row with id 2, yet returns id 2 — the
recursion's return value overwrote the `parent_id` variable — so the
walk does not return the id of the directory it was invoked on. -/
theorem walk_return_not_own_id :
    (runWalk sampleCtx emptyDB ['/'] (.ok sampleStat)
        (.lst (.cons ['s', 'u', 'b'] (.dir (.ok sampleStat) false (.lst .nil))
          .nil))).1.dirs.map (fun r => (r.id, r.full_path)) =
      [(1, ['/']), (2, ['/', 's', 'u', 'b'])] ∧
    (runWalk sampleCtx emptyDB ['/'] (.ok sampleStat)
        (.lst (.cons ['s', 'u', 'b'] (.dir (.ok sampleStat) false (.lst .nil))
          .nil))).2 = .ok (some 2) ∧
    (.ok (some 2) : Except PyErr (Option Nat)) ≠ .ok (some 1) :=
  ⟨by decide, rfl, by simp⟩

theorem walkItems_no_dir_pid (ctx : WalkCtx) (dirPath : List Char) :
    ∀ items : Entries, items.hasDir = false →
      ∀ (db : DB) (pid : Option Nat),
        (walkItems ctx db pid dirPath items).2.1 = pid := by
  intro items
  induction items using Entries.consInduction with
  | hn => intro _ db pid; rfl
  | hc name child rest ih =>
    intro h db pid
    cases child with
    | symlink =>
      exact ih (by simpa [Entries.hasDir] using h) db pid
    | dir st m lst => simp [Entries.hasDir] at h
    | file stE =>
      have hrest : rest.hasDir = false := by simpa [Entries.hasDir] using h
      cases stE with
      | error e => rfl
      | ok st =>
        unfold walkItems
        rcases howner : owner_of ctx (pathJoin dirPath name) st with e | ow
        · simp only [howner]
        · simp only [howner]
          exact ih hrest _ _

/-- C2 amended: the walk returns the final value of its `parent_id`
variable.  When the directory contains no subdirectory entries this is
the directory's own freshly assigned id (unless an uncaught exception
escapes); when the walk does recurse, the value handed to subsequent
sibling processing is the recursion's return value, which is the id of
the last directory inserted inside that subtree, not necessarily the
subdirectory's own id. -/
theorem walk_returns_own_id_no_subdirs (ctx : WalkCtx) (db : DB)
    (path name : List Char) (st : StatInfo) (items : Entries)
    (pid : Option Nat) (h : items.hasDir = false) :
    (walkDir ctx db path name (.ok st) (.lst items) pid).2 =
      .ok (some (next_rowid (db.dirs.map DirRow.id))) ∨
    ∃ e : PyErr,
      (walkDir ctx db path name (.ok st) (.lst items) pid).2 = .error e := by
  have hpid := walkItems_no_dir_pid ctx path items h
    (insert_directory db pid name path st.st_mode).1
    (some (insert_directory db pid name path st.st_mode).2)
  have hid : (insert_directory db pid name path st.st_mode).2 =
      next_rowid (db.dirs.map DirRow.id) := rfl
  rcases hw : walkItems ctx (insert_directory db pid name path st.st_mode).1
      (some (insert_directory db pid name path st.st_mode).2) path items with
    ⟨db2, pidv, errv⟩
  rw [hw] at hpid
  simp only at hpid
  rw [hid] at hpid
  cases errv with
  | none =>
    left
    simp only [walkDir, hw, hpid]
  | some e =>
    by_cases hp : e.isPermission
    · left
      simp only [walkDir, hw, hp, if_true, hpid]
    · right
      refine ⟨e, ?_⟩
      simp only [walkDir, hw, hp]
      simp

/-- C2 amended witness: a directory with an empty listing returns its
own id. -/
theorem walk_returns_own_id_no_subdirs_witness :
    Entries.hasDir .nil = false ∧
    ((walkDir sampleCtx emptyDB ['/'] [] (.ok sampleStat) (.lst .nil) none).2 =
        .ok (some (next_rowid (emptyDB.dirs.map DirRow.id))) ∨
      ∃ e : PyErr,
        (walkDir sampleCtx emptyDB ['/'] [] (.ok sampleStat) (.lst .nil)
          none).2 = .error e) :=
  ⟨rfl, walk_returns_own_id_no_subdirs sampleCtx emptyDB ['/'] [] sampleStat
    .nil none rfl⟩

/-- C3 counterexample: on a POSIX run whose passwd database lacks the
file's uid, `pwd.getpwuid` raises KeyError; the walker does not
proceed with an absent owner — the file's tag row is never written and
the exception escapes the entire walk (KeyError is neither a
PermissionError nor an OSError), aborting it. -/
theorem owner_failure_aborts :
    (runWalk noOwnerCtx emptyDB ['/'] (.ok sampleStat)
        (.lst (.cons ['a'] (.file (.ok sampleStat)) .nil))).2 =
      .error .keyError ∧
    (runWalk noOwnerCtx emptyDB ['/'] (.ok sampleStat)
        (.lst (.cons ['a'] (.file (.ok sampleStat)) .nil))).1.files.length = 1 ∧
    (runWalk noOwnerCtx emptyDB ['/'] (.ok sampleStat)
        (.lst (.cons ['a'] (.file (.ok sampleStat)) .nil))).1.tags = [] :=
  ⟨rfl, rfl, rfl⟩

/-- C3 amended: when owner resolution fails for a file — an unresolved
uid on POSIX, a failed SID lookup on Windows, or an unsupported
platform — the file row has been inserted but no tag row is written,
and the exception propagates out of the entry loop; since KeyError and
NameError are neither PermissionError nor OSError, no handler in the
walker catches them and the walk aborts. -/
theorem owner_failure_propagates (ctx : WalkCtx) (db : DB)
    (dirPath name : List Char) (st : StatInfo) (rest : Entries)
    (pid : Option Nat) (e : PyErr)
    (h : owner_of ctx (pathJoin dirPath name) st = .error e) :
    walkItems ctx db pid dirPath (.cons name (.file (.ok st)) rest) =
      ((insert_file db pid name (pathJoin dirPath name) st.st_size
          st.st_mode).1, pid, some e) ∧
    PyErr.keyError.isPermission = false ∧ PyErr.keyError.isOS = false ∧
    PyErr.nameError.isPermission = false ∧ PyErr.nameError.isOS = false := by
  refine ⟨?_, rfl, rfl, rfl, rfl⟩
  unfold walkItems
  simp only [h]

/-- C3 amended witness: the empty passwd database makes the single
file's processing raise KeyError right after its file row insert. -/
theorem owner_failure_propagates_witness :
    owner_of noOwnerCtx (pathJoin ['/'] ['a']) sampleStat =
      .error .keyError ∧
    walkItems noOwnerCtx emptyDB (some 1) ['/']
        (.cons ['a'] (.file (.ok sampleStat)) .nil) =
      ((insert_file emptyDB (some 1) ['a'] (pathJoin ['/'] ['a'])
          sampleStat.st_size sampleStat.st_mode).1, some 1,
        some PyErr.keyError) :=
  ⟨rfl, (owner_failure_propagates noOwnerCtx emptyDB ['/'] ['a'] sampleStat
    .nil (some 1) .keyError rfl).1⟩

/-- C4: a directory whose listing raises PermissionError has its own
row inserted before the error occurs, the walk of that subtree ends
there returning the id just established instead of raising, and the
caller's loop simply carries on with the remaining sibling entries
(with the returned id as the new parent id). -/
theorem permission_on_listing_recovered (ctx : WalkCtx) (db : DB)
    (path name : List Char) (st : StatInfo) (pid : Option Nat)
    (e : PyErr) (h : e.isPermission = true) :
    walkDir ctx db path name (.ok st) (.fail e) pid =
      ((insert_directory db pid name path st.st_mode).1,
        .ok (some (insert_directory db pid name path st.st_mode).2)) ∧
    ∀ (dirPath : List Char) (rest : Entries),
      walkItems ctx db pid dirPath
          (.cons name (.dir (.ok st) false (.fail e)) rest) =
        walkItems ctx
          (insert_directory db pid name (pathJoin dirPath name)
            st.st_mode).1
          (some (insert_directory db pid name (pathJoin dirPath name)
            st.st_mode).2)
          dirPath rest := by
  constructor
  · unfold walkDir
    simp [h]
  · intro dirPath rest
    have h1 : walkDir ctx db (pathJoin dirPath name) name (.ok st) (.fail e)
        pid =
        ((insert_directory db pid name (pathJoin dirPath name) st.st_mode).1,
          .ok (some (insert_directory db pid name (pathJoin dirPath name)
            st.st_mode).2)) := by
      unfold walkDir
      simp [h]
    show (match walkDir ctx db (pathJoin dirPath name) name (.ok st) (.fail e)
          pid with
      | (db2, Except.ok v) => walkItems ctx db2 v dirPath rest
      | (db2, Except.error e2) =>
        if e2.isOS then walkItems ctx db2 pid dirPath rest
        else (db2, pid, some e2)) = _
    rw [h1]

/-- C4 witness: concrete instance of the recovered listing failure. -/
theorem permission_on_listing_recovered_witness :
    PyErr.permissionError.isPermission = true ∧
    walkDir sampleCtx emptyDB ['/'] [] (.ok sampleStat)
        (.fail .permissionError) none =
      ((insert_directory emptyDB none [] ['/'] sampleStat.st_mode).1,
        .ok (some (insert_directory emptyDB none [] ['/']
          sampleStat.st_mode).2)) :=
  ⟨rfl, (permission_on_listing_recovered sampleCtx emptyDB ['/'] []
    sampleStat none .permissionError rfl).1⟩

/-- C6: a symbolic link entry is skipped entirely — processing it is
literally processing the remaining entries: no directory row, no file
row, no recursion into whatever it points at.  Since the walk
functions are total Lean functions over the finite observed tree and
never even inspect a link's target, a link cycling back to an ancestor
cannot cause infinite recursion. -/
theorem symlink_skipped (ctx : WalkCtx) (db : DB) (pid : Option Nat)
    (dirPath name : List Char) (rest : Entries) :
    walkItems ctx db pid dirPath (.cons name .symlink rest) =
      walkItems ctx db pid dirPath rest := rfl

/-- C10: with no allow-list supplied (`filesystems` is None, the
default on a non-Windows run), `is_path_in_filesystems` returns false
for every path — the TypeError from iterating None is caught by its
internal handler — and consequently the walker skips every mount-point
subdirectory it meets: no row is written for it, no recursion happens,
and no exception reaches the walker. -/
theorem default_run_skips_mounts (ctx : WalkCtx)
    (hwin : ctx.isWindows = false) (hall : ctx.allowed = none) :
    (∀ (resolve : List Char → Option (List Char)) (path : List Char),
      is_path_in_filesystems false resolve path none = false) ∧
    ∀ (db : DB) (pid : Option Nat) (dirPath name : List Char)
      (st : Except PyErr StatInfo) (lst : Listing) (rest : Entries),
      walkItems ctx db pid dirPath (.cons name (.dir st true lst) rest) =
        walkItems ctx db pid dirPath rest := by
  constructor
  · intro resolve path
    unfold is_path_in_filesystems
    cases resolve path <;> simp
  · intro db pid dirPath name st lst rest
    have hb : is_path_in_filesystems ctx.isWindows ctx.resolve
        (pathJoin dirPath name) ctx.allowed = false := by
      rw [hwin, hall]
      unfold is_path_in_filesystems
      cases h : ctx.resolve (pathJoin dirPath name) <;> simp
    show (if true && !(is_path_in_filesystems ctx.isWindows ctx.resolve
          (pathJoin dirPath name) ctx.allowed) then
        walkItems ctx db pid dirPath rest
      else
        match walkDir ctx db (pathJoin dirPath name) name st lst pid with
        | (db2, Except.ok v) => walkItems ctx db2 v dirPath rest
        | (db2, Except.error e) =>
          if e.isOS then walkItems ctx db2 pid dirPath rest
          else (db2, pid, some e)) = _
    rw [hb]
    simp

/-- C10 witness: concrete default run — the policy refuses and the
mount-point subdirectory is skipped without a trace. -/
theorem default_run_skips_mounts_witness :
    sampleCtx.isWindows = false ∧ sampleCtx.allowed = none ∧
    is_path_in_filesystems false (fun _ => some ['/', 'm']) ['/', 'm']
      none = false ∧
    walkItems sampleCtx emptyDB none ['/']
        (.cons ['m'] (.dir (.ok sampleStat) true (.lst .nil)) .nil) =
      walkItems sampleCtx emptyDB none ['/'] .nil :=
  ⟨rfl, rfl, (default_run_skips_mounts sampleCtx rfl rfl).1 _ _,
    (default_run_skips_mounts sampleCtx rfl rfl).2 _ _ _ _ _ _ _⟩
